import Mathlib

/-!
Verification of the Knowledge-Based-Agent RAG pipeline.

This file gives a shallow embedding, in Lean 4, of the document ingestion and
retrieval-augmented query pipeline of the repository (components `query.py`,
`ingest.py`, `external_ai.py`, `firebase_db.py`), and proves or refutes the
frozen specification claims about it.  External services (vector-search
backend, chat-completion API, disk I/O) are modelled as explicit parameters:
a call that can fail is an `Except` value, an HTTP exchange is a function
from attempt number to outcome, the local JSON file is the list of records it
holds.  All machine strings are Lean `String`s (Python `str` slicing is by
code points, matching `String.take`).
-/

namespace KBA

/-- Single quote character, used to build the literal message strings of the
source without bare apostrophes in string literals. -/
def apos : String := String.singleton (Char.ofNat 39)

/-- Python `str.lower()` on ASCII text: lowercase each character.  (Defined
over the character list so that it evaluates by kernel reduction.) -/
def pyLower (s : String) : String := String.mk (s.data.map Char.toLower)

/-- Python truthiness of an `Optional[str]` value: `None` and the empty
string are falsy, every other string is truthy. -/
def pyTruthyStr : Option String → Bool
  | none => false
  | some s => s != ""

/-- Metadata dictionary attached to a chunk as seen by the query pipeline
(`doc.metadata` in `query.py`); every key may be absent, the source reads
them with `dict.get(key, default)`. -/
structure DocMetadata where
  filename : Option String
  chunk_index : Option Nat
  category : Option String
  upload_timestamp : Option String
  document_id : Option String
  chunk_size : Option Nat
deriving DecidableEq

/-- A langchain `Document`: page content plus metadata. -/
structure Document where
  page_content : String
  metadata : DocMetadata
deriving DecidableEq

/-- Citation record built by `QueryEngine.extract_citations`. -/
structure Citation where
  source_number : Nat
  filename : String
  chunk_index : Nat
  category : String
  upload_timestamp : String
  content_preview : String
deriving DecidableEq

/-- Structured response returned by `QueryEngine.query`.  Keys that are only
present on some paths of the source are `Option`s (`none` = key absent from
the Python dict). -/
structure QueryResponse where
  answer : String
  sources : List Citation
  query : String
  timestamp : String
  model : String
  documents_retrieved : Option Nat
  category_filter : Option (Option String)
  success : Bool
  error : Option String
deriving DecidableEq

/-- Modelled from the spec: the third-party vector-search backends (Pinecone
and Chroma `similarity_search`, delegated to by `vector_store.py`) return the
top-`k` chunks ranked by descending embedding similarity; modelled as the
first `k` entries of the similarity-ranked index. -/
def similarity_search (index : List Document) (k : Nat) : List Document :=
  index.take k

/-- Category test used by the client-side filter in
`QueryEngine.retrieve_documents`: `doc.metadata.get('category', '').lower()
== category_filter.lower()`. -/
def matches_category (cf : String) (doc : Document) : Bool :=
  pyLower (doc.metadata.category.getD "") == pyLower cf

/-- `QueryEngine.retrieve_documents`: the vector-store call either returns a
document list or raises (`Except.error`); an exception is swallowed and an
empty list returned.  The category filter is applied only when the argument
is truthy (`if category_filter:` in Python skips `None` and `""`). -/
def retrieve_documents (searchResult : Except String (List Document))
    (category_filter : Option String) : List Document :=
  match searchResult with
  | Except.error _ => []
  | Except.ok documents =>
      if pyTruthyStr category_filter then
        documents.filter (matches_category (category_filter.getD ""))
      else
        documents

/-- `QueryEngine.format_context`: each retrieved chunk prefixed with a
`[Source N: filename (chunk idx)]` marker, joined by newlines. -/
def format_context (documents : List Document) : String :=
  if documents.isEmpty then
    "No relevant context found."
  else
    String.intercalate "\n" (documents.enum.map (fun p =>
      "[Source " ++ toString (p.1 + 1) ++ ": " ++ p.2.metadata.filename.getD "Unknown"
        ++ " (chunk " ++ toString (p.2.metadata.chunk_index.getD 0) ++ ")]\n"
        ++ p.2.page_content ++ "\n"))

/-- The QA prompt template of `QueryEngine` with `context` and `question`
substituted (`self.prompt.format(...)`). -/
def qa_prompt (context question : String) : String :=
  "\nUse the following pieces of context to answer the human" ++ apos
    ++ "s question. \nIf you don" ++ apos
    ++ "t know the answer based on the provided context, just say that you don"
    ++ apos ++ "t know, don" ++ apos
    ++ "t try to make up an answer.\n\nContext:\n" ++ context
    ++ "\n\nQuestion: " ++ question ++ "\n\nHelpful Answer:"

/-- Prefix of the answer produced by the error path of
`QueryEngine.generate_answer`. -/
def generate_error_prefix : String :=
  "Sorry, I encountered an error while generating the answer: "

/-- `QueryEngine.generate_answer`: formats the prompt and invokes the LLM
(`llm` maps the formatted prompt to the invocation outcome).  A successful
response is stripped; an invocation exception is caught and turned into the
error message string, which is returned as the answer. -/
def generate_answer (llm : String → Except String String)
    (query context : String) : String :=
  match llm (qa_prompt context query) with
  | Except.ok response => response.trim
  | Except.error e => generate_error_prefix ++ e

/-- `QueryEngine.extract_citations`: one citation per retrieved chunk, with
the content preview truncated to 200 characters plus an ellipsis when the
content is longer than 200 characters. -/
def extract_citations (documents : List Document) : List Citation :=
  documents.enum.map (fun p =>
    { source_number := p.1 + 1
      filename := p.2.metadata.filename.getD "Unknown"
      chunk_index := p.2.metadata.chunk_index.getD 0
      category := p.2.metadata.category.getD "general"
      upload_timestamp := p.2.metadata.upload_timestamp.getD "Unknown"
      content_preview :=
        if p.2.page_content.length > 200 then p.2.page_content.take 200 ++ "..."
        else p.2.page_content })

/-- The truncation rule of a citation content preview, named for the
specification comparison in the claims about `extract_citations`. -/
def content_preview_of (s : String) : String :=
  if s.length > 200 then s.take 200 ++ "..." else s

/-- The answer string of the zero-chunk path of `QueryEngine.query`. -/
def no_info_answer : String :=
  "I couldn" ++ apos
    ++ "t find any relevant information to answer your question. Please try rephrasing or upload more documents."

/-- Response returned by `QueryEngine.query` when retrieval yields no
documents: non-success, empty sources, no `documents_retrieved`,
`category_filter` or `error` keys. -/
def noInfoResponse (question timestamp modelName : String) : QueryResponse :=
  { answer := no_info_answer
    sources := []
    query := question
    timestamp := timestamp
    model := modelName
    documents_retrieved := none
    category_filter := none
    success := false
    error := none }

/-- `QueryEngine.query`: the full RAG pipeline.  `searchResult` is the
outcome of the vector-store call for this question and `k` (a raised
exception is `Except.error`), `llm` is the model invocation.  The outer
`except` of the source is unreachable here because every modelled step
returns normally (`retrieve_documents` and `generate_answer` catch their
exceptions; query logging failure is swallowed). -/
def query (question timestamp modelName : String)
    (searchResult : Except String (List Document))
    (category_filter : Option String)
    (llm : String → Except String String) : QueryResponse :=
  let documents := retrieve_documents searchResult category_filter
  if documents.isEmpty then
    noInfoResponse question timestamp modelName
  else
    let context := format_context documents
    let answer := generate_answer llm question context
    let citations := extract_citations documents
    { answer := answer
      sources := citations
      query := question
      timestamp := timestamp
      model := modelName
      documents_retrieved := some documents.length
      category_filter := some category_filter
      success := true
      error := none }

/-! Ingestion pipeline (`ingest.py`). -/

/-- Python `pathlib.Path(name).stem` on a final path component: the name
with its last suffix removed; the suffix is the part from the last dot on,
except when that dot is the first character or the last character. -/
def pathStem (name : String) : String :=
  let cs := name.toList
  match ((List.range cs.length).filter (fun i => cs.getD i ' ' == '.')).getLast? with
  | some i => if 0 < i && i + 1 < cs.length then String.mk (cs.take i) else name
  | none => name

/-- `DocumentProcessor.generate_document_id`: deterministic ID from the MD5
hex digest of the chunk content and the filename stem.  The MD5 digest
function (Python `hashlib.md5(...).hexdigest()`) is an external library
primitive, passed in as `md5hex`. -/
def generate_document_id (md5hex : String → String)
    (content filename : String) : String :=
  pathStem filename ++ "_" ++ (md5hex content).take 8

/-- Metadata of a chunk as produced by the loaders (`PyPDFLoader`,
`Docx2txtLoader`, `TextLoader` produce only `source` and, for PDFs, `page`);
these keys are merged over the base metadata by `prepare_metadata`. -/
structure LoaderMeta where
  source : Option String
  page : Option Nat
deriving DecidableEq

/-- A chunk as returned by the text splitter, before ingestion metadata is
attached. -/
structure RawChunk where
  page_content : String
  metadata : LoaderMeta
deriving DecidableEq

/-- Metadata dictionary built by `DocumentProcessor.prepare_metadata`
(plus the `category` key added afterwards by `process_and_store`). -/
structure ChunkMeta where
  filename : String
  chunk_index : Nat
  chunk_size : Nat
  upload_timestamp : String
  document_id : String
  source : Option String
  page : Option Nat
  category : Option String
deriving DecidableEq

/-- `DocumentProcessor.prepare_metadata`: base metadata (filename, chunk
index, chunk size, timestamp, content-hash document ID) updated with the
loader metadata of the chunk; the loader keys (`source`, `page`) are
disjoint from the base keys, so the update adds them. -/
def prepare_metadata (md5hex : String → String) (document : RawChunk)
    (filename : String) (chunk_index : Nat) (now : String) : ChunkMeta :=
  { filename := filename
    chunk_index := chunk_index
    chunk_size := document.page_content.length
    upload_timestamp := now
    document_id := generate_document_id md5hex document.page_content filename
    source := document.metadata.source
    page := document.metadata.page
    category := none }

/-- A chunk prepared for storage by `process_and_store` (the new `Document`
with full metadata). -/
structure ProcessedDoc where
  page_content : String
  metadata : ChunkMeta
deriving DecidableEq

/-- The Document record persisted by `process_and_store` via
`metadata_db.create_document`. -/
structure DocumentInfo where
  filename : String
  category : String
  total_chunks : Nat
  upload_timestamp : String
  file_size : Nat
  file_type : String
  vector_ids : List String
  document_ids : List String
deriving DecidableEq

/-- The chunk-preparation loop of `DocumentProcessor.process_and_store`:
for each chunk, in order, attach metadata (with `category` set) and record
its `document_id`; returns the processed documents and the recorded IDs. -/
def process_chunks (md5hex : String → String) (chunked_docs : List RawChunk)
    (filename category now : String) : List ProcessedDoc × List String :=
  let processed := chunked_docs.enum.map (fun p =>
    ProcessedDoc.mk p.2.page_content
      { prepare_metadata md5hex p.2 filename p.1 now with category := some category })
  (processed, processed.map (fun d => d.metadata.document_id))

/-- The Document record built by `DocumentProcessor.process_and_store` on
its success path: `total_chunks` is the length of the processed list,
`vector_ids` the IDs returned by the vector store, `document_ids` the IDs
recorded one per chunk. -/
def process_and_store_record (md5hex : String → String)
    (chunked_docs : List RawChunk) (filename category now : String)
    (file_size : Nat) (file_type : String)
    (vector_ids : List String) : DocumentInfo :=
  let pr := process_chunks md5hex chunked_docs filename category now
  { filename := filename
    category := category
    total_chunks := pr.1.length
    upload_timestamp := now
    file_size := file_size
    file_type := file_type
    vector_ids := vector_ids
    document_ids := pr.2 }

/-- An uploaded file handed to `process_uploaded_files` (only its name is
relevant to the iteration structure). -/
structure UploadedFile where
  name : String
deriving DecidableEq

/-- Per-file result dictionary of `process_and_store` /
`process_uploaded_files`; keys present only on one path are `Option`s. -/
structure FileResult where
  success : Bool
  filename : String
  chunks_created : Option Nat
  metadata_id : Option String
  error : Option String
  message : String
deriving DecidableEq

/-- Path of the temporary on-disk copy of an uploaded file
(`os.path.join("uploads", uploaded_file.name)`). -/
def uploadPath (f : UploadedFile) : String := "uploads/" ++ f.name

/-- The result built by the `except` branch of `process_uploaded_files` when
saving or processing a file raises. -/
def save_error_result (f : UploadedFile) (msg : String) : FileResult :=
  { success := false
    filename := f.name
    chunks_created := none
    metadata_id := none
    error := some msg
    message := "Failed to process " ++ f.name ++ ": " ++ msg }

/-- One iteration of the `process_uploaded_files` loop over the filesystem
state `fs` (the set of temporary paths on disk, as a duplicate-free list).
`save f` is the outcome of writing the upload to disk (`some msg` = the
write raised, modelled as failing before the copy exists); `process f` is
the result dictionary returned by `process_and_store`, which catches every
exception and returns normally on success and failure alike.  After
processing, `os.remove` deletes the copy unconditionally. -/
def process_one_file (save : UploadedFile → Option String)
    (process : UploadedFile → FileResult)
    (fs : List String) (f : UploadedFile) : List String × FileResult :=
  match save f with
  | some msg => (fs, save_error_result f msg)
  | none =>
      let fs1 := uploadPath f :: fs.filter (fun p => p != uploadPath f)
      let r := process f
      let fs2 := fs1.filter (fun p => p != uploadPath f)
      (fs2, r)

/-- `DocumentProcessor.process_uploaded_files`: iterate over the uploaded
files in order, threading the filesystem state, collecting one result per
file. -/
def process_uploaded_files (save : UploadedFile → Option String)
    (process : UploadedFile → FileResult) :
    List UploadedFile → List String → List FileResult × List String
  | [], fs => ([], fs)
  | f :: rest, fs =>
      let step := process_one_file save process fs f
      let restRun := process_uploaded_files save process rest step.1
      (step.2 :: restRun.1, restRun.2)

/-- The outcome `process_uploaded_files` records for a single file,
depending only on that file: the save-error result if the write raised,
otherwise whatever `process_and_store` returned. -/
def file_outcome (save : UploadedFile → Option String)
    (process : UploadedFile → FileResult) (f : UploadedFile) : FileResult :=
  match save f with
  | some msg => save_error_result f msg
  | none => process f

/-! Chat-completion HTTP call with retry (`external_ai.py`,
`ExternalAIIntegrator.query_chatgpt`). -/

/-- Outcome of one HTTP POST to the chat-completion endpoint: a 200 response
with extracted content, a 429 rate-limit response, any other status code
with its body text, or a raised `requests.RequestException`. -/
inductive HttpOutcome where
  | ok (content : String)
  | rateLimited
  | otherStatus (code : Nat) (text : String)
  | requestError (msg : String)
deriving DecidableEq

/-- Result dictionary of `query_chatgpt`: success with the answer content,
or failure with an error string. -/
inductive ChatResult where
  | success (answer : String)
  | failure (error : String)
deriving DecidableEq

/-- The retry bound of `query_chatgpt` (`max_retries = 3`). -/
def max_retries : Nat := 3

/-- Error string returned when every attempt is rate-limited. -/
def rate_limit_error : String := "Rate limit exceeded. Try again in a few minutes."

/-- The `for attempt in range(max_retries)` loop of `query_chatgpt`.
`outcomes n` is the outcome of the HTTP call on attempt `n`; a 200 returns
the content, a 429 or a request exception sleeps and retries unless this is
the last attempt, any other status returns its error immediately.  The fuel
counts the remaining loop iterations, starting at `max_retries`; the
zero-fuel branch mirrors the implicit `None` after an exhausted `for` loop
and is unreachable, since the last attempt always returns. -/
def attemptLoop (outcomes : Nat → HttpOutcome) : Nat → Nat → ChatResult
  | _, 0 => ChatResult.failure ""
  | attempt, fuel + 1 =>
      match outcomes attempt with
      | HttpOutcome.ok content => ChatResult.success content
      | HttpOutcome.rateLimited =>
          if attempt < max_retries - 1 then
            attemptLoop outcomes (attempt + 1) fuel
          else
            ChatResult.failure rate_limit_error
      | HttpOutcome.otherStatus code text =>
          ChatResult.failure ("OpenAI API error: " ++ toString code ++ " - " ++ text)
      | HttpOutcome.requestError msg =>
          if attempt < max_retries - 1 then
            attemptLoop outcomes (attempt + 1) fuel
          else
            ChatResult.failure ("Request failed: " ++ msg)

/-- `ExternalAIIntegrator.query_chatgpt` on the configured-API-key path:
run the retry loop from attempt 0. -/
def query_chatgpt (outcomes : Nat → HttpOutcome) : ChatResult :=
  attemptLoop outcomes 0 max_retries

/-! Local flat-file metadata store (`firebase_db.py`,
`LocalJSONMetadataDB`). -/

/-- A JSON record, modelled as a Python dict from string keys to string
values with insertion order. -/
abbrev PyDict := List (String × String)

/-- Python `dict.get(key)`: the value of the first (unique) binding of the
key, or `None`. -/
def dictGet (d : PyDict) (k : String) : Option String :=
  (d.find? (fun kv => kv.1 == k)).map (fun kv => kv.2)

/-- Python `dict[key] = value`: overwrite in place when present, else append
at the end. -/
def dictInsert (d : PyDict) (k v : String) : PyDict :=
  if (d.find? (fun kv => kv.1 == k)).isSome then
    d.map (fun kv => if kv.1 == k then (k, v) else kv)
  else
    d ++ [(k, v)]

/-- Python `dict.update(patch)`: insert each binding of the patch in order. -/
def dictUpdate (d : PyDict) (patch : PyDict) : PyDict :=
  patch.foldl (fun acc kv => dictInsert acc kv.1 kv.2) d

/-- Result of a mutating call on the local store: the boolean the method
returns, the resulting contents of the flat file, and whether `_save_json`
rewrote the file at all. -/
structure DBWriteResult where
  ok : Bool
  file : List PyDict
  wrote : Bool
deriving DecidableEq

/-- `LocalJSONMetadataDB.update_document` over the parsed contents of
`documents.json`: find the first record whose `id` equals `doc_id`, update
it in place with the patch plus a fresh `updated_at`, and rewrite the file;
the `for ... else` returns `False` without saving when no record matches. -/
def update_document (documents : List PyDict) (doc_id : String)
    (update_data : PyDict) (now : String) : DBWriteResult :=
  match documents.findIdx? (fun doc => dictGet doc "id" == some doc_id) with
  | none => { ok := false, file := documents, wrote := false }
  | some i =>
      { ok := true
        file := documents.set i
          (dictInsert (dictUpdate (documents.getD i []) update_data) "updated_at" now)
        wrote := true }

/-- `LocalJSONMetadataDB.delete_document`: remove the first record whose
`id` equals `doc_id` and rewrite the file; the `for ... else` returns
`False` without saving when no record matches. -/
def delete_document (documents : List PyDict) (doc_id : String) : DBWriteResult :=
  match documents.findIdx? (fun doc => dictGet doc "id" == some doc_id) with
  | none => { ok := false, file := documents, wrote := false }
  | some i => { ok := true, file := documents.eraseIdx i, wrote := true }

/-! Concrete fixtures used by counterexamples and witnesses. -/

/-- Example chunk of category `hr`, ranked first in the example index. -/
def docHr : Document :=
  { page_content := "HR vacation policy text"
    metadata := { filename := some "hr.txt", chunk_index := some 0, category := some "hr",
                  upload_timestamp := some "2024-01-01", document_id := some "hr_ab12cd34",
                  chunk_size := some 23 } }

/-- Example chunk of category `Policies` (matching the filter `policies`
case-insensitively), ranked second in the example index. -/
def docPolicies : Document :=
  { page_content := "Policies text"
    metadata := { filename := some "pol.txt", chunk_index := some 1, category := some "Policies",
                  upload_timestamp := some "2024-01-02", document_id := some "pol_ab12cd34",
                  chunk_size := some 13 } }

/-- Default citation value used with `List.getD`. -/
def emptyCitation : Citation :=
  { source_number := 0, filename := "", chunk_index := 0, category := "",
    upload_timestamp := "", content_preview := "" }

/-- Default document value used with `List.getD`. -/
def emptyDocument : Document :=
  { page_content := ""
    metadata := { filename := none, chunk_index := none, category := none,
                  upload_timestamp := none, document_id := none, chunk_size := none } }

/-- HTTP outcome schedule: 429 on attempts 0 and 1, success on attempt 2. -/
def c6OutcomesA : Nat → HttpOutcome := fun i =>
  if i = 0 then HttpOutcome.rateLimited
  else if i = 1 then HttpOutcome.rateLimited
  else HttpOutcome.ok "third attempt content"

/-- HTTP outcome schedule: 429 on every attempt. -/
def c6OutcomesB : Nat → HttpOutcome := fun _ => HttpOutcome.rateLimited

/-- Example save behaviour: writing the file named `bad` raises, every other
write succeeds. -/
def saveEx : UploadedFile → Option String := fun f =>
  if f.name = "bad" then some "io error" else none

/-- Example per-file processing outcome. -/
def processEx : UploadedFile → FileResult := fun f =>
  { success := true, filename := f.name, chunks_created := some 3,
    metadata_id := some "m1", error := none, message := "ok" }

/-! Helper lemmas. -/

/-- Taking at most `n` characters of a string yields at most `n`
characters. -/
theorem string_length_take_le (s : String) (n : Nat) : (s.take n).length ≤ n := by
  have h : (s.take n).data = s.data.take n := String.data_take s n
  have h2 : (s.take n).length = (s.data.take n).length := by
    rw [show (s.take n).length = (s.take n).data.length from rfl, h]
  rw [h2, List.length_take]
  exact Nat.min_le_left _ _

/-- Mapping over an enumerated list with a function that only looks at the
element recovers the plain map. -/
theorem enum_map_snd_comp {α β : Type} (l : List α) (h : α → β) :
    l.enum.map (fun p => h p.2) = l.map h := by
  conv_rhs => rw [← List.enum_map_snd l]
  rw [List.map_map]
  rfl

/-! Claim theorems. -/

/-- C1 (counterexample): with one retrieved chunk and a Model Provider
invocation that raises, `QueryEngine.query` returns a response whose
`success` flag is `true` — not `false` as the claim states — while the
answer carries the error text. -/
theorem C1_counterexample :
    (query "q" "t" "gpt" (Except.ok [docHr]) none (fun _ => Except.error "boom")).success = true
    ∧ (query "q" "t" "gpt" (Except.ok [docHr]) none (fun _ => Except.error "boom")).answer
        = generate_error_prefix ++ "boom" := by
  constructor <;> rfl

/-- C1 (amended): for every question where the Model Provider invocation
raises, `QueryEngine.query` returns a structured response whose answer
carries the error text and the error is never propagated as an exception,
but — because `generate_answer` catches the error and returns the message
as an ordinary answer — the response's `success` flag is `true`, with the
citations attached as on the normal path. -/
theorem C1_llm_error_caught_success_true
    (question timestamp modelName : String)
    (searchResult : Except String (List Document))
    (category_filter : Option String) (e : String)
    (h : retrieve_documents searchResult category_filter ≠ []) :
    (query question timestamp modelName searchResult category_filter
        (fun _ => Except.error e)).success = true
    ∧ (query question timestamp modelName searchResult category_filter
        (fun _ => Except.error e)).answer = generate_error_prefix ++ e
    ∧ (query question timestamp modelName searchResult category_filter
        (fun _ => Except.error e)).sources
        = extract_citations (retrieve_documents searchResult category_filter) := by
  have hne : (retrieve_documents searchResult category_filter).isEmpty = false := by
    simpa [List.isEmpty_iff] using h
  refine ⟨?_, ?_, ?_⟩ <;> simp [query, hne, generate_answer]

/-- Witness for C1: the amended statement applied to a concrete engine
state with a failing Model Provider. -/
theorem C1_llm_error_caught_success_true_witness :
    (query "what is the policy" "t0" "gpt" (Except.ok [docHr, docPolicies]) none
        (fun _ => Except.error "connection reset")).success = true
    ∧ (query "what is the policy" "t0" "gpt" (Except.ok [docHr, docPolicies]) none
        (fun _ => Except.error "connection reset")).answer
        = generate_error_prefix ++ "connection reset"
    ∧ (query "what is the policy" "t0" "gpt" (Except.ok [docHr, docPolicies]) none
        (fun _ => Except.error "connection reset")).sources
        = extract_citations (retrieve_documents (Except.ok [docHr, docPolicies]) none) :=
  C1_llm_error_caught_success_true "what is the policy" "t0" "gpt"
    (Except.ok [docHr, docPolicies]) none "connection reset" (by decide)

/-- C2: when retrieval (after any category filtering) yields zero chunks,
`QueryEngine.query` returns the non-success response with the
no-relevant-information answer and empty sources, and the result does not
depend on the Model Provider — it is never invoked. -/
theorem C2_empty_retrieval_no_llm
    (question timestamp modelName : String)
    (searchResult : Except String (List Document))
    (category_filter : Option String)
    (h : retrieve_documents searchResult category_filter = []) :
    ∀ llm llm' : String → Except String String,
      (query question timestamp modelName searchResult category_filter llm).success = false
      ∧ (query question timestamp modelName searchResult category_filter llm).sources = []
      ∧ (query question timestamp modelName searchResult category_filter llm).answer
          = no_info_answer
      ∧ query question timestamp modelName searchResult category_filter llm
          = query question timestamp modelName searchResult category_filter llm' := by
  intro llm llm'
  refine ⟨?_, ?_, ?_, ?_⟩ <;> simp [query, h, noInfoResponse]

/-- Witness for C2: a query against an empty index, under two different
Model Providers. -/
theorem C2_empty_retrieval_no_llm_witness :
    (query "q" "t0" "gpt" (Except.ok []) none (fun _ => Except.ok "A")).success = false
    ∧ (query "q" "t0" "gpt" (Except.ok []) none (fun _ => Except.ok "A")).sources = []
    ∧ (query "q" "t0" "gpt" (Except.ok []) none (fun _ => Except.ok "A")).answer
        = no_info_answer
    ∧ query "q" "t0" "gpt" (Except.ok []) none (fun _ => Except.ok "A")
        = query "q" "t0" "gpt" (Except.ok []) none (fun _ => Except.error "B") :=
  C2_empty_retrieval_no_llm "q" "t0" "gpt" (Except.ok []) none rfl
    (fun _ => Except.ok "A") (fun _ => Except.error "B")

/-- C3: `retrieve_documents` returns at most `k` chunks; when a truthy
category filter is supplied every returned chunk's category equals the
filter case-insensitively; and because the filter runs after top-k
retrieval, it can return zero results even when a matching chunk exists in
the index outside the top-k window (shown on the concrete two-chunk index
with `k = 1`). -/
theorem C3_topk_then_filter :
    (∀ (index : List Document) (k : Nat) (category_filter : Option String),
        (retrieve_documents (Except.ok (similarity_search index k)) category_filter).length ≤ k)
    ∧ (∀ (index : List Document) (k : Nat) (cf : String) (doc : Document),
        doc ∈ retrieve_documents (Except.ok (similarity_search index k)) (some cf) →
        cf ≠ "" →
        pyLower (doc.metadata.category.getD "") = pyLower cf)
    ∧ (retrieve_documents (Except.ok (similarity_search [docHr, docPolicies] 1))
          (some "policies") = []
        ∧ docPolicies ∈ [docHr, docPolicies]
        ∧ matches_category "policies" docPolicies = true) := by
  refine ⟨?_, ?_, ?_, ?_, ?_⟩
  · intro index k category_filter
    unfold retrieve_documents similarity_search
    cases h : pyTruthyStr category_filter <;> simp only [if_pos, if_neg, Bool.false_eq_true,
      ite_false, ite_true]
    · calc (index.take k).length = min k index.length := List.length_take k index
        _ ≤ k := Nat.min_le_left _ _
    · calc ((index.take k).filter (matches_category (category_filter.getD ""))).length
          ≤ (index.take k).length := List.length_filter_le _ _
        _ = min k index.length := List.length_take k index
        _ ≤ k := Nat.min_le_left _ _
  · intro index k cf doc hmem hcf
    have htruthy : pyTruthyStr (some cf) = true := by
      simp [pyTruthyStr, hcf]
    unfold retrieve_documents similarity_search at hmem
    rw [htruthy] at hmem
    simp only [ite_true] at hmem
    have := (List.mem_filter.mp hmem).2
    simpa [matches_category] using this
  · decide
  · decide
  · decide

/-- Witness for C3: on a concrete index the filtered result's chunk matches
the filter case-insensitively and the result length is bounded by `k`. -/
theorem C3_topk_then_filter_witness :
    pyLower (docPolicies.metadata.category.getD "") = pyLower "policies"
    ∧ (retrieve_documents (Except.ok (similarity_search [docHr, docPolicies] 2))
        (some "policies")).length ≤ 2 :=
  ⟨C3_topk_then_filter.2.1 [docHr, docPolicies] 2 "policies" docPolicies
      (by decide) (by decide),
   C3_topk_then_filter.1 [docHr, docPolicies] 2 (some "policies")⟩

/-- C4: the Document record written by `process_and_store` has
`total_chunks` equal to the number of chunks produced, which equals the
length of its `document_ids` list — one recorded ID per chunk. -/
theorem C4_total_chunks_invariant
    (md5hex : String → String) (chunked_docs : List RawChunk)
    (filename category now file_type : String) (file_size : Nat)
    (vector_ids : List String) :
    (process_and_store_record md5hex chunked_docs filename category now
        file_size file_type vector_ids).total_chunks
      = (process_chunks md5hex chunked_docs filename category now).1.length
    ∧ (process_and_store_record md5hex chunked_docs filename category now
        file_size file_type vector_ids).total_chunks
      = chunked_docs.length
    ∧ (process_and_store_record md5hex chunked_docs filename category now
        file_size file_type vector_ids).document_ids.length
      = (process_and_store_record md5hex chunked_docs filename category now
        file_size file_type vector_ids).total_chunks := by
  refine ⟨rfl, ?_, ?_⟩ <;>
    simp [process_and_store_record, process_chunks, List.enum_length]

/-- C5: `extract_citations` produces exactly one citation per retrieved
chunk, in order each chunk's `content_preview` follows the 200-character
truncation rule (full content when short, first 200 characters plus an
ellipsis when long), and every preview has length at most 203. -/
theorem C5_citations_preview_bound (documents : List Document) :
    (extract_citations documents).length = documents.length
    ∧ (extract_citations documents).map (fun c => c.content_preview)
        = documents.map (fun d => content_preview_of d.page_content)
    ∧ ∀ c ∈ extract_citations documents, c.content_preview.length ≤ 203 := by
  refine ⟨?_, ?_, ?_⟩
  · simp [extract_citations, List.enum_length]
  · rw [extract_citations, List.map_map]
    exact enum_map_snd_comp documents (fun d => content_preview_of d.page_content)
  · intro c hc
    obtain ⟨p, _, rfl⟩ := List.mem_map.mp hc
    by_cases hlen : p.2.page_content.length > 200
    · simp only [hlen, ite_true]
      have h3 : ("..." : String).length = 3 := rfl
      rw [String.length_append, h3]
      have := string_length_take_le p.2.page_content 200
      omega
    · simp only [hlen, ite_false]
      omega

/-- Witness for C5: the bound applied to the concrete single-chunk list. -/
theorem C5_citations_preview_bound_witness :
    ((extract_citations [docHr]).getD 0 emptyCitation).content_preview.length ≤ 203 :=
  (C5_citations_preview_bound [docHr]).2.2
    ((extract_citations [docHr]).getD 0 emptyCitation) (by decide)

/-- C6: the chat-completion call retries rate-limited (429) attempts up to
the fixed bound `max_retries = 3`: if the first two attempts are
rate-limited and the third succeeds, the call succeeds with the third
attempt's content; if all three attempts are rate-limited, it returns the
final non-success rate-limit error instead of retrying further. -/
theorem C6_rate_limit_retry (outcomes : Nat → HttpOutcome) :
    (∀ c : String,
        outcomes 0 = HttpOutcome.rateLimited →
        outcomes 1 = HttpOutcome.rateLimited →
        outcomes 2 = HttpOutcome.ok c →
        query_chatgpt outcomes = ChatResult.success c)
    ∧ (outcomes 0 = HttpOutcome.rateLimited →
        outcomes 1 = HttpOutcome.rateLimited →
        outcomes 2 = HttpOutcome.rateLimited →
        query_chatgpt outcomes = ChatResult.failure rate_limit_error) := by
  constructor
  · intro c h0 h1 h2
    simp [query_chatgpt, max_retries, attemptLoop, h0, h1, h2]
  · intro h0 h1 h2
    simp [query_chatgpt, max_retries, attemptLoop, h0, h1, h2]

/-- Witness for C6: the two concrete outcome schedules. -/
theorem C6_rate_limit_retry_witness :
    query_chatgpt c6OutcomesA = ChatResult.success "third attempt content"
    ∧ query_chatgpt c6OutcomesB = ChatResult.failure rate_limit_error :=
  ⟨(C6_rate_limit_retry c6OutcomesA).1 "third attempt content" rfl rfl rfl,
   (C6_rate_limit_retry c6OutcomesB).2 rfl rfl rfl⟩

/-- C7: `process_uploaded_files` yields exactly one result per input file,
in order, each file's outcome depending only on that file (so one file's
failure never prevents a later file from being processed), no temporary
copy remains at the end, and after any successfully saved file is processed
its temporary path is gone from the filesystem state — on the success and
the failure path of processing alike, since `process_and_store` returns a
result dictionary in both cases and `os.remove` runs unconditionally after
it. -/
theorem C7_batch_independence_and_cleanup :
    (∀ (save : UploadedFile → Option String) (process : UploadedFile → FileResult)
        (files : List UploadedFile),
        process_uploaded_files save process files []
          = (files.map (file_outcome save process), []))
    ∧ (∀ (save : UploadedFile → Option String) (process : UploadedFile → FileResult)
        (fs : List String) (f : UploadedFile),
        save f = none →
        uploadPath f ∉ (process_one_file save process fs f).1) := by
  constructor
  · intro save process files
    induction files with
    | nil => rfl
    | cons f rest ih =>
        have hstep : process_one_file save process [] f
            = ((process_one_file save process [] f).1,
               file_outcome save process f) := by
          cases hs : save f <;>
            simp [process_one_file, file_outcome, hs]
        have hfs : (process_one_file save process [] f).1 = [] := by
          cases hs : save f <;>
            simp [process_one_file, hs, List.filter]
        simp only [process_uploaded_files, List.map_cons]
        rw [hfs] at hstep ⊢
        rw [hstep, ih]
  · intro save process fs f hs hmem
    simp only [process_one_file, hs] at hmem
    have := List.mem_filter.mp hmem
    simp at this

/-- Witness for C7: the loop over two concrete files, the second of which
fails to save; both results appear in order and the filesystem ends
empty. -/
theorem C7_batch_independence_and_cleanup_witness :
    process_uploaded_files saveEx processEx [UploadedFile.mk "a.txt", UploadedFile.mk "bad"] []
      = ([file_outcome saveEx processEx (UploadedFile.mk "a.txt"),
          file_outcome saveEx processEx (UploadedFile.mk "bad")], [])
    ∧ uploadPath (UploadedFile.mk "a.txt")
        ∉ (process_one_file saveEx processEx [] (UploadedFile.mk "a.txt")).1 :=
  ⟨C7_batch_independence_and_cleanup.1 saveEx processEx
      [UploadedFile.mk "a.txt", UploadedFile.mk "bad"],
   C7_batch_independence_and_cleanup.2 saveEx processEx [] (UploadedFile.mk "a.txt")
      (by decide)⟩

/-- C8: a chunk's `document_id` is a deterministic function of its content
and filename alone: two chunks with the same content and filename get the
same ID from `prepare_metadata`, whatever their chunk index, timestamp or
loader metadata, and that ID is `generate_document_id` of content and
filename. -/
theorem C8_document_id_deterministic
    (md5hex : String → String) (content filename now1 now2 : String)
    (i1 i2 : Nat) (lm1 lm2 : LoaderMeta) :
    (prepare_metadata md5hex (RawChunk.mk content lm1) filename i1 now1).document_id
      = (prepare_metadata md5hex (RawChunk.mk content lm2) filename i2 now2).document_id
    ∧ (prepare_metadata md5hex (RawChunk.mk content lm1) filename i1 now1).document_id
      = generate_document_id md5hex content filename := ⟨rfl, rfl⟩

/-- C9: when the vector store's `similarity_search` raises during a query,
`retrieve_documents` swallows the exception and returns the empty list, and
`QueryEngine.query` returns the non-success no-relevant-information
response with empty sources and no `error` key — not a response reporting
the retrieval error. -/
theorem C9_search_error_swallowed
    (question timestamp modelName e : String) (category_filter : Option String)
    (llm : String → Except String String) :
    retrieve_documents (Except.error e) category_filter = []
    ∧ query question timestamp modelName (Except.error e) category_filter llm
        = noInfoResponse question timestamp modelName
    ∧ (query question timestamp modelName (Except.error e) category_filter llm).success
        = false
    ∧ (query question timestamp modelName (Except.error e) category_filter llm).error
        = none := by
  refine ⟨rfl, ?_, ?_, ?_⟩ <;> simp [query, retrieve_documents, noInfoResponse]

/-- C10: on the local flat-file metadata store, `update_document` and
`delete_document` with an ID not present in the stored collection return
`False`, leave the collection unchanged, and never rewrite the file. -/
theorem C10_not_found_no_write
    (documents : List PyDict) (doc_id : String) (update_data : PyDict) (now : String)
    (h : ∀ doc ∈ documents, dictGet doc "id" ≠ some doc_id) :
    update_document documents doc_id update_data now
        = DBWriteResult.mk false documents false
    ∧ delete_document documents doc_id
        = DBWriteResult.mk false documents false := by
  have hidx : documents.findIdx? (fun doc => dictGet doc "id" == some doc_id) = none := by
    rw [List.findIdx?_eq_none_iff]
    intro doc hdoc
    simpa using h doc hdoc
  constructor <;> simp [update_document, delete_document, hidx]

/-- Witness for C10: a concrete one-record store queried with an absent
ID. -/
theorem C10_not_found_no_write_witness :
    update_document [[("id", "doc_1")]] "doc_2" [("category", "hr")] "2024-01-02"
        = DBWriteResult.mk false [[("id", "doc_1")]] false
    ∧ delete_document [[("id", "doc_1")]] "doc_2"
        = DBWriteResult.mk false [[("id", "doc_1")]] false :=
  C10_not_found_no_write [[("id", "doc_1")]] "doc_2" [("category", "hr")] "2024-01-02"
    (by decide)

end KBA
